import Mathlib

/-!
Shallow embedding of `seahub/api2/endpoints/group_libraries.py`: the
group-library access controller with three operations (list, create,
delete) over an external Repository Service (`seafile_api` / `ccnet_api`).

External collaborators (the Repository Service, the group service, the
share-policy table, the user directory, the configuration flag) are
modeled as an explicit environment of oracle functions; each handler is a
pure function of the environment and its request arguments, returning its
HTTP-level result together with the ordered trace of side-effecting calls
it issued.
-/

/-- A repository record as returned by the Repository Service
(`seafile_api.get_repo` / the group-repo listing calls). Fields are the
ones this fragment reads: id, name, last-modified timestamp, size,
encrypted flag, owner (`.user` on listing records), binding permission,
last modifier, and the optional origin repo id / origin path of a
sub-library. -/
structure Repo where
  id : String
  name : String
  last_modified : Nat
  size : Nat
  encrypted : Bool
  user : String
  permission : String
  last_modifier : String
  origin_repo_id : Option String
  origin_path : Option String
deriving DecidableEq

/-- An error response produced by `api_error(status, msg)`. -/
structure ApiError where
  status : Nat
  msg : String
deriving DecidableEq

/-- Outcome of a handler: a successful response value, an `api_error`
response, or an unhandled fault (a Python exception escaping the handler,
e.g. attribute access on `None`). -/
inductive ApiResult (α : Type) where
  | ok (val : α)
  | err (e : ApiError)
  | fault
deriving DecidableEq

/-- The `api_error(403, 'Permission denied.')` response used by every
authorization failure in this file. -/
def permissionDeniedError : ApiError := ⟨403, "Permission denied."⟩

/-- Modelled from the spec: the not-found signal produced by the
`api_check_group` decorator (defined in `seahub/api2/endpoints/utils.py`,
not part of this fragment) when the target group does not exist. -/
def groupNotFoundError : ApiError := ⟨404, "Group not found."⟩

/-- The `api_error(403, ...)` response of the encrypted-library feature
gate in `GroupLibraries.post` (the spec's `FeatureDisabled`). -/
def encryptedLibraryDisabledError : ApiError :=
  ⟨403, "NOT allow to create encrypted library."⟩

/-- Side-effecting calls a handler can issue against the Repository
Service, the extra-share-permission table, the `repo_created` signal and
the permission-audit channel, in the order the code issues them. -/
inductive Effect where
  | createRepo (name desc owner : String) (password : Option String)
  | createOrgRepo (name desc owner : String) (password : Option String) (orgId : Int)
  | setGroupRepo (repoId : String) (groupId : Int) (user perm : String)
  | addOrgGroupRepo (repoId : String) (orgId : Int) (groupId : Int) (user perm : String)
  | repoCreated (orgId : Int) (creator repoId repoName libraryTemplate : String)
  | unsetGroupRepo (repoId : String) (groupId : Int) (user : String)
  | delOrgGroupRepo (repoId : String) (orgId : Int) (groupId : Int)
  | deleteSharePermission (repoId : String) (groupId : Int)
  | sendPermAuditMsg (etype actor : String) (groupId : Int) (repoId path detail : String)
deriving DecidableEq

/-- The environment of external collaborators. Repository Service,
group service (`ccnet`), share policy, configuration, user directory and
time formatting are all outside this fragment; each is an oracle.
`get_repo` is the service's view at the handler's first fetch;
`get_repo_after_create` / `get_repo_after_unbind` are its views at the
re-fetches that follow the creation / unbinding side effects (the service
may change the record in between, e.g. a sub-library may become dangling
after unbinding). -/
structure Env where
  group_exists : Int → Bool
  is_group_member : Int → String → Bool
  is_group_admin : Int → String → Bool
  is_repo_admin : String → String → Bool
  is_org_context : Bool
  org_id : Int
  get_org_group_repos : Int → Int → List Repo
  get_repos_by_group : Int → List Repo
  can_add_repo : Bool
  enable_encrypted_library : Bool
  create_repo : String → String → String → Option String → String
  create_org_repo : String → String → String → Option String → Int → String
  get_repo : String → Option Repo
  get_repo_after_create : String → Option Repo
  get_repo_after_unbind : String → Option Repo
  get_repo_owner : String → String
  is_org_group : Int → Bool
  get_org_id_by_group : Int → Int
  email2nickname : String → String
  email2contact_email : String → String
  timestamp_to_isoformat_timestr : Nat → String

/-- Python truthiness of an optional string (`request.data.get(...)`):
falsy when the key is absent (`None`) or the value is the empty string. -/
def strOptTruthy : Option String → Bool
  | none => false
  | some s => !s.isEmpty

/-- Python `x or d` for an optional string attribute: `d` when `x` is
`None` or empty, `x` otherwise (used for `origin_repo_id or repo_id` and
`origin_path or '/'`). -/
def pyStrOr : Option String → String → String
  | none, d => d
  | some s, d => if s.isEmpty then d else s

/-- Modelled from the spec: `is_valid_dirent_name` (`seahub/utils.py`,
not part of this fragment) — a syntactic directory-entry-name check that
rejects the empty name and names containing a path separator or a null
byte. -/
def is_valid_dirent_name (name : String) : Bool :=
  !name.isEmpty && !name.data.contains '/' && !name.data.contains (Char.ofNat 0)

/-- The record shape produced for one repository by
`get_group_repo_info` and by the tail of `GroupLibraries.post`. -/
structure GroupRepoInfo where
  repo_id : String
  repo_name : String
  mtime : String
  permission : String
  size : Nat
  encrypted : Bool
  owner_email : String
  owner_name : String
  owner_contact_name : String
  modifier_email : String
  modifier_name : String
  modifier_contact_email : String
deriving DecidableEq

/-- `get_group_repo_info(group_repo)`: project a listing record to the
response dictionary. -/
def get_group_repo_info (env : Env) (group_repo : Repo) : GroupRepoInfo :=
  { repo_id := group_repo.id
    repo_name := group_repo.name
    mtime := env.timestamp_to_isoformat_timestr group_repo.last_modified
    permission := group_repo.permission
    size := group_repo.size
    encrypted := group_repo.encrypted
    owner_email := group_repo.user
    owner_name := env.email2nickname group_repo.user
    owner_contact_name := env.email2contact_email group_repo.user
    modifier_email := group_repo.last_modifier
    modifier_name := env.email2nickname group_repo.last_modifier
    modifier_contact_email := env.email2contact_email group_repo.last_modifier }

/-- `group_repos.sort(lambda x, y: cmp(y.last_modified, x.last_modified))`:
a stable sort by last-modified timestamp, descending. -/
def sortGroupRepos (l : List Repo) : List Repo :=
  l.mergeSort (fun x y => decide (y.last_modified ≤ x.last_modified))

/-- `GroupLibraries.get` (list group libraries), including the
`api_check_group` existence precondition. -/
def GroupLibraries_get (env : Env) (group_id : Int) (username : String) :
    ApiResult (List GroupRepoInfo) × List Effect :=
  if ¬ env.group_exists group_id then (.err groupNotFoundError, [])
  else if ¬ env.is_group_member group_id username then
    (.err permissionDeniedError, [])
  else
    let group_repos :=
      if env.is_org_context then env.get_org_group_repos env.org_id group_id
      else env.get_repos_by_group group_id
    (.ok ((sortGroupRepos group_repos).map (get_group_repo_info env)), [])

/-- `GroupLibraries.post` (add a group library), including the
`api_check_group` existence precondition. Arguments mirror
`request.data.get(...)`: `none` when the key is absent. -/
def GroupLibraries_post (env : Env) (group_id : Int) (username : String)
    (repo_name : Option String) (password : Option String)
    (permission_arg : Option String) (library_template : Option String) :
    ApiResult GroupRepoInfo × List Effect :=
  if ¬ env.group_exists group_id then (.err groupNotFoundError, [])
  else match repo_name with
  | none => (.err ⟨400, "repo_name invalid."⟩, [])
  | some rn =>
    if rn.isEmpty ∨ ¬ is_valid_dirent_name rn then
      (.err ⟨400, "repo_name invalid."⟩, [])
    else if strOptTruthy password ∧ ¬ env.enable_encrypted_library then
      (.err encryptedLibraryDisabledError, [])
    else
      let permission := permission_arg.getD "rw"
      if permission ≠ "r" ∧ permission ≠ "rw" then
        (.err ⟨400, "permission invalid."⟩, [])
      else if ¬ env.can_add_repo then (.err permissionDeniedError, [])
      else if ¬ env.is_group_member group_id username then
        (.err permissionDeniedError, [])
      else
        let step :=
          if env.is_org_context then
            (env.org_id, env.create_org_repo rn "" username password env.org_id,
             [Effect.createOrgRepo rn "" username password env.org_id,
              Effect.addOrgGroupRepo
                (env.create_org_repo rn "" username password env.org_id)
                env.org_id group_id username permission])
          else
            ((-1 : Int), env.create_repo rn "" username password,
             [Effect.createRepo rn "" username password,
              Effect.setGroupRepo (env.create_repo rn "" username password)
                group_id username permission])
        let org_id := step.1
        let repo_id := step.2.1
        let effs := step.2.2 ++
          [Effect.repoCreated org_id username repo_id rn (library_template.getD "")]
        match env.get_repo_after_create repo_id with
        | none => (.fault, effs)
        | some repo =>
          (.ok { repo_id := repo.id
                 repo_name := repo.name
                 mtime := env.timestamp_to_isoformat_timestr repo.last_modified
                 permission := permission
                 size := repo.size
                 encrypted := repo.encrypted
                 owner_email := username
                 owner_name := env.email2nickname username
                 owner_contact_name := env.email2contact_email username
                 modifier_email := repo.last_modifier
                 modifier_name := env.email2nickname repo.last_modifier
                 modifier_contact_email := env.email2contact_email repo.last_modifier },
           effs)

/-- `GroupLibrary.delete` (delete a group library), including the
`api_check_group` existence precondition. The re-fetch after unbinding is
unguarded in the source (`repo.origin_repo_id` on a possibly-`None`
`repo`), so an absent record there yields `fault`. -/
def GroupLibrary_delete (env : Env) (group_id : Int) (repo_id : String)
    (username : String) : ApiResult Bool × List Effect :=
  if ¬ env.group_exists group_id then (.err groupNotFoundError, [])
  else match env.get_repo repo_id with
  | none => (.err ⟨404, "Library " ++ repo_id ++ " not found."⟩, [])
  | some _ =>
    let repo_owner := env.get_repo_owner repo_id
    if ¬ env.is_group_admin group_id username ∧ repo_owner ≠ username ∧
        ¬ env.is_repo_admin username repo_id then
      (.err permissionDeniedError, [])
    else
      let unbindEff :=
        if env.is_org_group group_id then
          Effect.delOrgGroupRepo repo_id (env.get_org_id_by_group group_id) group_id
        else Effect.unsetGroupRepo repo_id group_id username
      let effs := [unbindEff, Effect.deleteSharePermission repo_id group_id]
      match env.get_repo_after_unbind repo_id with
      | none => (.fault, effs)
      | some repo =>
        (.ok true,
         effs ++ [Effect.sendPermAuditMsg "delete-repo-perm" username group_id
           (pyStrOr repo.origin_repo_id repo_id) (pyStrOr repo.origin_path "/") ""])

/-- Modelled from the spec: the durable share state the effects act on —
group-repository bindings and `ExtraGroupsSharePermission` rows, each
keyed by a (repo id, group id) pair. -/
structure ShareState where
  bindings : List (String × Int)
  extraPerms : List (String × Int)
deriving DecidableEq

/-- Modelled from the spec: interpretation of one side effect on the
share state (share/unshare calls add/remove the binding;
`ExtraGroupsSharePermission.objects.delete_share_permission` removes the
rows for the pair; creation, signal and audit effects do not touch it). -/
def applyEffect (s : ShareState) : Effect → ShareState
  | .setGroupRepo rid gid _ _ => { s with bindings := (rid, gid) :: s.bindings }
  | .addOrgGroupRepo rid _ gid _ _ => { s with bindings := (rid, gid) :: s.bindings }
  | .unsetGroupRepo rid gid _ =>
      { s with bindings := s.bindings.filter (fun p => decide (p ≠ (rid, gid))) }
  | .delOrgGroupRepo rid _ gid =>
      { s with bindings := s.bindings.filter (fun p => decide (p ≠ (rid, gid))) }
  | .deleteSharePermission rid gid =>
      { s with extraPerms := s.extraPerms.filter (fun p => decide (p ≠ (rid, gid))) }
  | _ => s

/-- Run a trace of effects over the share state, in order. -/
def applyEffects (s : ShareState) (l : List Effect) : ShareState :=
  l.foldl applyEffect s

/-- Is an effect a permission-audit emission? -/
def isAuditEffect : Effect → Bool
  | .sendPermAuditMsg _ _ _ _ _ _ => true
  | _ => false

/-- C1: given that the group exists and the repository exists, the delete
operation fails with `PermissionDenied` if and only if the acting user is
none of: a group admin of the group, the repository's recorded owner, or
a holder of a repo-admin grant for that repository. -/
theorem C1_delete_permission_denied_iff (env : Env) (gid : Int) (rid u : String)
    (r : Repo) (hg : env.group_exists gid = true) (hr : env.get_repo rid = some r) :
    (GroupLibrary_delete env gid rid u).1 = ApiResult.err permissionDeniedError ↔
      ¬(env.is_group_admin gid u = true ∨ env.get_repo_owner rid = u ∨
        env.is_repo_admin u rid = true) := by
  by_cases hown : env.get_repo_owner rid = u <;>
  cases ha : env.is_group_admin gid u <;>
  cases hc : env.is_repo_admin u rid <;>
  cases h2 : env.get_repo_after_unbind rid <;>
  simp [GroupLibrary_delete, hg, hr, ha, hc, hown, h2]

/-- C9: when the group exists, the repository resolves at the first fetch
and the authorization passes, but the re-fetch after unbinding returns
absent, the delete operation neither errors nor succeeds: it faults
(unguarded attribute access on an absent record). -/
theorem C9_delete_refetch_absent_faults (env : Env) (gid : Int) (rid u : String)
    (r : Repo) (hg : env.group_exists gid = true) (hr : env.get_repo rid = some r)
    (hauth : env.is_group_admin gid u = true ∨ env.get_repo_owner rid = u ∨
      env.is_repo_admin u rid = true)
    (hre : env.get_repo_after_unbind rid = none) :
    (GroupLibrary_delete env gid rid u).1 = ApiResult.fault ∧
      (∀ v, (GroupLibrary_delete env gid rid u).1 ≠ ApiResult.ok v) ∧
      (∀ e, (GroupLibrary_delete env gid rid u).1 ≠ ApiResult.err e) := by
  rcases hauth with ha | ho | hc <;>
  simp_all [GroupLibrary_delete]

/-- C10: in the non-organizational path, the unshare call is invoked with
the acting user's identifier as its owner argument, even when the acting
user is not the repository's recorded owner. -/
theorem C10_delete_unshare_uses_acting_user (env : Env) (gid : Int) (rid u : String)
    (r : Repo) (hg : env.group_exists gid = true) (hr : env.get_repo rid = some r)
    (hauth : env.is_group_admin gid u = true ∨ env.is_repo_admin u rid = true)
    (hnotorg : env.is_org_group gid = false)
    (hnotowner : env.get_repo_owner rid ≠ u) :
    ((GroupLibrary_delete env gid rid u).2).head? =
      some (Effect.unsetGroupRepo rid gid u) := by
  rcases hauth with ha | hc <;>
  cases h2 : env.get_repo_after_unbind rid <;>
  simp_all [GroupLibrary_delete]

/-- Helper: a successful delete resolves the re-fetch and its trace is
exactly unbind, extra-permission deletion, audit emission, in order. -/
theorem GroupLibrary_delete_ok_trace (env : Env) (gid : Int) (rid u : String)
    (h : (GroupLibrary_delete env gid rid u).1 = ApiResult.ok true) :
    ∃ repo2, env.get_repo_after_unbind rid = some repo2 ∧
      (GroupLibrary_delete env gid rid u).2 =
        [(if env.is_org_group gid then
            Effect.delOrgGroupRepo rid (env.get_org_id_by_group gid) gid
          else Effect.unsetGroupRepo rid gid u),
         Effect.deleteSharePermission rid gid,
         Effect.sendPermAuditMsg "delete-repo-perm" u gid
           (pyStrOr repo2.origin_repo_id rid) (pyStrOr repo2.origin_path "/") ""] := by
  cases hg : env.group_exists gid <;>
  cases hr : env.get_repo rid <;>
  by_cases hown : env.get_repo_owner rid = u <;>
  cases ha : env.is_group_admin gid u <;>
  cases hc : env.is_repo_admin u rid <;>
  cases horg : env.is_org_group gid <;>
  cases h2 : env.get_repo_after_unbind rid <;>
  simp_all [GroupLibrary_delete]

/-- C7: every successful delete emits exactly one permission-audit
message, with event type "delete-repo-perm", the acting user as actor,
the group id, the re-fetched repository's origin repo id (falling back to
the binding repo id), the origin path (defaulting to "/"), and an empty
detail field. -/
theorem C7_delete_emits_one_audit_message (env : Env) (gid : Int) (rid u : String)
    (h : (GroupLibrary_delete env gid rid u).1 = ApiResult.ok true) :
    ∃ repo2, env.get_repo_after_unbind rid = some repo2 ∧
      ((GroupLibrary_delete env gid rid u).2).filter isAuditEffect =
        [Effect.sendPermAuditMsg "delete-repo-perm" u gid
          (pyStrOr repo2.origin_repo_id rid) (pyStrOr repo2.origin_path "/") ""] := by
  obtain ⟨repo2, h2, htr⟩ := GroupLibrary_delete_ok_trace env gid rid u h
  refine ⟨repo2, h2, ?_⟩
  rw [htr]
  cases horg : env.is_org_group gid <;> simp [isAuditEffect, List.filter]

/-- C8: every successful delete issues the deletion of the
`ExtraGroupsSharePermission` record for the (repo id, group id) pair
immediately after the unbinding call, and after interpreting the
operation's effects no extra-share-permission row for that pair remains
in any share state. -/
theorem C8_delete_removes_extra_share_permission (env : Env) (gid : Int) (rid u : String)
    (h : (GroupLibrary_delete env gid rid u).1 = ApiResult.ok true) :
    (∃ ub rest, (GroupLibrary_delete env gid rid u).2 =
        ub :: Effect.deleteSharePermission rid gid :: rest ∧
        (ub = Effect.unsetGroupRepo rid gid u ∨
          ub = Effect.delOrgGroupRepo rid (env.get_org_id_by_group gid) gid)) ∧
      ∀ s : ShareState,
        (rid, gid) ∉ (applyEffects s (GroupLibrary_delete env gid rid u).2).extraPerms := by
  obtain ⟨repo2, h2, htr⟩ := GroupLibrary_delete_ok_trace env gid rid u h
  constructor
  · refine ⟨_, _, htr, ?_⟩
    cases horg : env.is_org_group gid <;> simp
  · intro s
    rw [htr]
    cases horg : env.is_org_group gid <;>
    simp [applyEffects, applyEffect, List.mem_filter]

/-- Helper: the sorted listing is pairwise descending in the
last-modified timestamp. -/
theorem sortGroupRepos_pairwise (l : List Repo) :
    (sortGroupRepos l).Pairwise
      (fun a b => b.last_modified ≤ a.last_modified) := by
  have h := @List.sorted_mergeSort Repo
    (fun x y => decide (y.last_modified ≤ x.last_modified))
    (by intro a b c h1 h2; simp at h1 h2 ⊢; omega)
    (by intro a b; simpa using Nat.le_total b.last_modified a.last_modified) l
  exact h.imp (by intro a b hb; simpa using hb)

/-- C2: for every group that exists, the list operation fails with
`PermissionDenied` if and only if the acting user is not a current member
of the group; a member gets the repository list back. -/
theorem C2_list_permission_denied_iff_not_member (env : Env) (gid : Int) (u : String)
    (hg : env.group_exists gid = true) :
    ((GroupLibraries_get env gid u).1 = ApiResult.err permissionDeniedError ↔
      env.is_group_member gid u = false) ∧
    (env.is_group_member gid u = true →
      (GroupLibraries_get env gid u).1 =
        ApiResult.ok ((sortGroupRepos
          (if env.is_org_context then env.get_org_group_repos env.org_id gid
           else env.get_repos_by_group gid)).map (get_group_repo_info env))) := by
  cases hm : env.is_group_member gid u <;>
  simp_all [GroupLibraries_get]

/-- C3: every successful list result is sorted by last-modified
timestamp, descending: any element at an earlier index projects a
repository whose last-modified timestamp is at least that of any element
at a later index. -/
theorem C3_list_sorted_descending (env : Env) (gid : Int) (u : String)
    (result : List GroupRepoInfo)
    (h : (GroupLibraries_get env gid u).1 = ApiResult.ok result)
    (i j : Nat) (hij : i < j) (x y : GroupRepoInfo)
    (hx : result.get? i = some x) (hy : result.get? j = some y) :
    ∃ r1 r2 : Repo, x = get_group_repo_info env r1 ∧
      y = get_group_repo_info env r2 ∧
      r2.last_modified ≤ r1.last_modified := by
  have hres : ∃ repos, result = (sortGroupRepos repos).map (get_group_repo_info env) := by
    cases hgx : env.group_exists gid <;>
    cases hm : env.is_group_member gid u <;>
    simp_all [GroupLibraries_get] <;> exact ⟨_, h.symm⟩
  obtain ⟨repos, hres⟩ := hres
  subst hres
  rw [List.get?_map] at hx hy
  obtain ⟨r1, hr1, hxr⟩ := Option.map_eq_some'.mp hx
  obtain ⟨r2, hr2, hyr⟩ := Option.map_eq_some'.mp hy
  obtain ⟨hi, hgi⟩ := List.get?_eq_some.mp hr1
  obtain ⟨hj, hgj⟩ := List.get?_eq_some.mp hr2
  refine ⟨r1, r2, hxr.symm, hyr.symm, ?_⟩
  have hp := List.pairwise_iff_get.mp (sortGroupRepos_pairwise repos)
    ⟨i, hi⟩ ⟨j, hj⟩ hij
  rw [hgi, hgj] at hp
  exact hp

/-- C4: whenever the create operation returns an error response, it has
issued no side-effecting call: its trace is empty and interpreting it
leaves every share state unchanged. -/
theorem C4_create_error_no_side_effects (env : Env) (gid : Int) (u : String)
    (repo_name password permission_arg library_template : Option String) (e : ApiError)
    (h : (GroupLibraries_post env gid u repo_name password
      permission_arg library_template).1 = ApiResult.err e) :
    (GroupLibraries_post env gid u repo_name password
      permission_arg library_template).2 = [] ∧
    ∀ s : ShareState, applyEffects s (GroupLibraries_post env gid u repo_name
      password permission_arg library_template).2 = s := by
  rcases hP : GroupLibraries_post env gid u repo_name password
    permission_arg library_template with ⟨res, effs⟩
  rw [hP] at h
  unfold GroupLibraries_post at hP
  simp only [ne_eq] at hP
  repeat' (split at hP)
  all_goals injection hP with h1 h2
  all_goals subst h1
  all_goals subst h2
  all_goals first
    | exact ⟨rfl, fun s => rfl⟩
    | simp at h

/-- C5: a create request with a valid repository name and a non-empty
password fails with the encrypted-library feature-gate error whenever the
encryption flag is off, for every environment (in particular regardless
of the can-add-repository capability and of group membership). -/
theorem C5_create_password_feature_gate (env : Env) (gid : Int) (u : String)
    (rn p : String) (permission_arg library_template : Option String)
    (hg : env.group_exists gid = true)
    (hn : is_valid_dirent_name rn = true)
    (hp : p ≠ "")
    (he : env.enable_encrypted_library = false) :
    (GroupLibraries_post env gid u (some rn) (some p)
      permission_arg library_template).1 =
      ApiResult.err encryptedLibraryDisabledError := by
  have hne : rn.isEmpty = false := by
    cases hh : rn.isEmpty
    · rfl
    · simp [is_valid_dirent_name, hh] at hn
  have hpe : p.isEmpty = false := by
    cases hh : p.isEmpty
    · rfl
    · exact absurd ((String.isEmpty_iff p).mp hh) hp
  simp [GroupLibraries_post, hg, hn, hne, strOptTruthy, hpe, he]

/-- C6: every successful create returns a projected record whose owner
identifier is the acting user, and — given the Repository Service
guarantee that a just-created library's last modifier is its creator —
whose modifier identifier is the acting user as well. -/
theorem C6_create_owner_modifier_is_creator (env : Env) (gid : Int) (u : String)
    (repo_name password permission_arg library_template : Option String)
    (info : GroupRepoInfo)
    (hmod : ∀ rid r, env.get_repo_after_create rid = some r → r.last_modifier = u)
    (h : (GroupLibraries_post env gid u repo_name password
      permission_arg library_template).1 = ApiResult.ok info) :
    info.owner_email = u ∧ info.modifier_email = u := by
  unfold GroupLibraries_post at h
  simp only [ne_eq] at h
  repeat' (split at h)
  any_goals simp_all
  all_goals subst h
  all_goals exact ⟨rfl, hmod _ _ (by assumption)⟩

/-- A concrete repository owned by alice, recently modified. -/
def repoA : Repo :=
  { id := "r1", name := "Notes", last_modified := 900, size := 10,
    encrypted := false, user := "alice@x.com", permission := "rw",
    last_modifier := "alice@x.com", origin_repo_id := none, origin_path := none }

/-- A concrete repository owned by alice, modified earlier than `repoA`. -/
def repoB : Repo :=
  { id := "r2", name := "Docs", last_modified := 500, size := 20,
    encrypted := false, user := "alice@x.com", permission := "r",
    last_modifier := "dave@x.com", origin_repo_id := none, origin_path := none }

/-- The record the Repository Service returns for the repository created
in the concrete environment (`create_repo` answers "rNew"). -/
def createdRepo : Repo :=
  { id := "rNew", name := "Notes", last_modified := 1000, size := 0,
    encrypted := false, user := "alice@x.com", permission := "rw",
    last_modifier := "alice@x.com", origin_repo_id := none, origin_path := none }

/-- A concrete environment: group 42 exists, alice is a member, carol is
a group admin, repository "r1" (owned by alice) is shared to the group,
no organization context, encrypted libraries disabled. -/
def envW : Env :=
  { group_exists := fun g => g == 42
    is_group_member := fun g m => g == 42 && m == "alice@x.com"
    is_group_admin := fun g m => g == 42 && m == "carol@x.com"
    is_repo_admin := fun _ _ => false
    is_org_context := false
    org_id := -1
    get_org_group_repos := fun _ _ => []
    get_repos_by_group := fun g => if g == 42 then [repoB, repoA] else []
    can_add_repo := true
    enable_encrypted_library := false
    create_repo := fun _ _ _ _ => "rNew"
    create_org_repo := fun _ _ _ _ _ => "rNewOrg"
    get_repo := fun rid => if rid == "r1" then some repoA else none
    get_repo_after_create := fun rid => if rid == "rNew" then some createdRepo else none
    get_repo_after_unbind := fun rid => if rid == "r1" then some repoA else none
    get_repo_owner := fun rid => if rid == "r1" then "alice@x.com" else ""
    is_org_group := fun _ => false
    get_org_id_by_group := fun _ => -1
    email2nickname := fun e => e
    email2contact_email := fun e => e
    timestamp_to_isoformat_timestr := fun t => toString t }

/-- A variant of `envW` in which the repository record vanishes after the
unbinding call (a dangling sub-library). -/
def envDangling : Env := { envW with get_repo_after_unbind := fun _ => none }

/-- Witness for C1: in `envW`, bob (not group admin, not owner, no
repo-admin grant) gets `PermissionDenied` from delete. -/
theorem C1_witness :
    envW.group_exists 42 = true ∧ envW.get_repo "r1" = some repoA ∧
    ((GroupLibrary_delete envW 42 "r1" "bob@x.com").1 =
        ApiResult.err permissionDeniedError ↔
      ¬(envW.is_group_admin 42 "bob@x.com" = true ∨
        envW.get_repo_owner "r1" = "bob@x.com" ∨
        envW.is_repo_admin "bob@x.com" "r1" = true)) :=
  ⟨rfl, rfl, C1_delete_permission_denied_iff envW 42 "r1" "bob@x.com" repoA rfl rfl⟩

/-- Witness for C9: in `envDangling`, alice (the owner) deletes and the
re-fetch is absent, so the operation faults. -/
theorem C9_witness :
    (GroupLibrary_delete envDangling 42 "r1" "alice@x.com").1 = ApiResult.fault ∧
      (∀ v, (GroupLibrary_delete envDangling 42 "r1" "alice@x.com").1 ≠ ApiResult.ok v) ∧
      (∀ e, (GroupLibrary_delete envDangling 42 "r1" "alice@x.com").1 ≠ ApiResult.err e) :=
  C9_delete_refetch_absent_faults envDangling 42 "r1" "alice@x.com" repoA rfl rfl
    (Or.inr (Or.inl rfl)) rfl

/-- Witness for C10: in `envW`, carol (group admin, not the owner)
deletes and the unshare call carries carol as owner argument. -/
theorem C10_witness :
    ((GroupLibrary_delete envW 42 "r1" "carol@x.com").2).head? =
      some (Effect.unsetGroupRepo "r1" 42 "carol@x.com") :=
  C10_delete_unshare_uses_acting_user envW 42 "r1" "carol@x.com" repoA rfl rfl
    (Or.inl rfl) rfl (by decide)

/-- Witness for C7: carol's successful delete in `envW` emits exactly the
one audit message. -/
theorem C7_witness :
    ∃ repo2, envW.get_repo_after_unbind "r1" = some repo2 ∧
      ((GroupLibrary_delete envW 42 "r1" "carol@x.com").2).filter isAuditEffect =
        [Effect.sendPermAuditMsg "delete-repo-perm" "carol@x.com" 42
          (pyStrOr repo2.origin_repo_id "r1") (pyStrOr repo2.origin_path "/") ""] :=
  C7_delete_emits_one_audit_message envW 42 "r1" "carol@x.com" rfl

/-- Witness for C8: carol's successful delete in `envW` removes the
extra-share-permission row for ("r1", 42). -/
theorem C8_witness :
    (∃ ub rest, (GroupLibrary_delete envW 42 "r1" "carol@x.com").2 =
        ub :: Effect.deleteSharePermission "r1" 42 :: rest ∧
        (ub = Effect.unsetGroupRepo "r1" 42 "carol@x.com" ∨
          ub = Effect.delOrgGroupRepo "r1" (envW.get_org_id_by_group 42) 42)) ∧
      ∀ s : ShareState,
        ("r1", (42 : Int)) ∉
          (applyEffects s (GroupLibrary_delete envW 42 "r1" "carol@x.com").2).extraPerms :=
  C8_delete_removes_extra_share_permission envW 42 "r1" "carol@x.com" rfl

/-- Witness for C2: group 42 exists in `envW`; for member alice the iff
and the returned list instantiate concretely. -/
theorem C2_witness :
    envW.group_exists 42 = true ∧
    (((GroupLibraries_get envW 42 "alice@x.com").1 =
        ApiResult.err permissionDeniedError ↔
      envW.is_group_member 42 "alice@x.com" = false) ∧
    (envW.is_group_member 42 "alice@x.com" = true →
      (GroupLibraries_get envW 42 "alice@x.com").1 =
        ApiResult.ok ((sortGroupRepos
          (if envW.is_org_context then envW.get_org_group_repos envW.org_id 42
           else envW.get_repos_by_group 42)).map (get_group_repo_info envW)))) :=
  ⟨rfl, C2_list_permission_denied_iff_not_member envW 42 "alice@x.com" rfl⟩

unseal List.merge List.mergeSort in
/-- Witness for C3: alice's listing of group 42 returns `repoA` (modified
at 900) before `repoB` (modified at 500), and the sortedness theorem
applies at indices 0 < 1. -/
theorem C3_witness :
    (GroupLibraries_get envW 42 "alice@x.com").1 =
      ApiResult.ok [get_group_repo_info envW repoA, get_group_repo_info envW repoB] ∧
    ∃ r1 r2 : Repo, get_group_repo_info envW repoA = get_group_repo_info envW r1 ∧
      get_group_repo_info envW repoB = get_group_repo_info envW r2 ∧
      r2.last_modified ≤ r1.last_modified :=
  ⟨rfl, C3_list_sorted_descending envW 42 "alice@x.com"
    [get_group_repo_info envW repoA, get_group_repo_info envW repoB] rfl
    0 1 (by decide) (get_group_repo_info envW repoA) (get_group_repo_info envW repoB)
    rfl rfl⟩

/-- Witness for C4: a create request without a repository name errors and
issues no effect. -/
theorem C4_witness :
    (GroupLibraries_post envW 42 "alice@x.com" none none none none).1 =
      ApiResult.err ⟨400, "repo_name invalid."⟩ ∧
    ((GroupLibraries_post envW 42 "alice@x.com" none none none none).2 = [] ∧
     ∀ s : ShareState,
       applyEffects s (GroupLibraries_post envW 42 "alice@x.com" none none none none).2 = s) :=
  ⟨rfl, C4_create_error_no_side_effects envW 42 "alice@x.com" none none none none
    ⟨400, "repo_name invalid."⟩ rfl⟩

/-- Witness for C5: alice (who may add repositories and is a member)
still hits the feature gate when supplying a password with encryption
disabled. -/
theorem C5_witness :
    envW.group_exists 42 = true ∧ is_valid_dirent_name "My Notes" = true ∧
    "secret" ≠ "" ∧ envW.enable_encrypted_library = false ∧
    (GroupLibraries_post envW 42 "alice@x.com" (some "My Notes") (some "secret")
      none none).1 = ApiResult.err encryptedLibraryDisabledError :=
  ⟨rfl, by decide, by decide, rfl,
   C5_create_password_feature_gate envW 42 "alice@x.com" "My Notes" "secret"
     none none rfl (by decide) (by decide) rfl⟩

/-- The response record alice's successful creation of "Notes" yields in
`envW`. -/
def createdInfo : GroupRepoInfo :=
  { repo_id := "rNew", repo_name := "Notes", mtime := "1000",
    permission := "rw", size := 0, encrypted := false,
    owner_email := "alice@x.com", owner_name := "alice@x.com",
    owner_contact_name := "alice@x.com", modifier_email := "alice@x.com",
    modifier_name := "alice@x.com", modifier_contact_email := "alice@x.com" }

/-- Witness for C6: alice's successful creation of "Notes" in `envW`
returns a record owned and last modified by alice. -/
theorem C6_witness :
    ∃ info, (GroupLibraries_post envW 42 "alice@x.com" (some "Notes")
        none none none).1 = ApiResult.ok info ∧
      (info.owner_email = "alice@x.com" ∧ info.modifier_email = "alice@x.com") :=
  ⟨createdInfo, by decide, C6_create_owner_modifier_is_creator envW 42 "alice@x.com"
    (some "Notes") none none none createdInfo
    (by intro rid r h
        change (if rid == "rNew" then some createdRepo else none) = some r at h
        split at h
        · injection h with h2
          subst h2
          rfl
        · exact Option.noConfusion h)
    (by decide)⟩
